import Mathlib

/-!
Verification development for the js-libp2p circuit-relay v2 HOP service and
the pubsub framed peer-stream wrapper.

The HOP protocol engine (reservation store, HOP state machine, gater hooks)
is exercised by `packages/libp2p/test/circuit-relay/hop.spec.ts`; its server
implementation is not part of the sources at hand, so the model below is
built from the design document (`spec.md`, §3, §4.B, §4.C, §4.D, §6).
The peer-stream wrapper is embedded directly from
`packages/pubsub/src/peer-streams.ts`.
-/

namespace CircuitRelay

/-- Peer identity: opaque value with decidable equality (spec §3). -/
abbrev PeerId := Nat

/-- Multiaddr: either an external address of the relay, or the circuit
address `/p2p/<peer>/p2p-circuit` derived from a peer id (spec §3, §4.D). -/
inductive Multiaddr where
  | ext (n : Nat)
  | circuit (p : PeerId)
deriving DecidableEq, Repr

/-- `Limit = { data, duration }`; zero means unbounded on that axis (spec §3). -/
structure Limit where
  data : Nat
  duration : Nat
deriving DecidableEq, Repr

/-- A reservation record held by the store (spec §3). `createdAt` is dropped:
no claim mentions it. `expire` is in unix seconds. -/
structure Reservation where
  expire : Nat
  addrs : List Multiaddr
  limit : Limit
deriving DecidableEq, Repr

/-- Modelled from the spec: per-instance configuration of the reservation
store (spec §4.B and §6, configuration table). `reservationTtl` is in
seconds (2 hours = 7200 s). -/
structure StoreConfig where
  maxReservations : Nat := 15
  reservationTtl : Nat := 7200
  defaultDataLimit : Nat := 131072
  defaultDurationLimit : Nat := 120
deriving DecidableEq, Repr

/-- The default configuration of spec §6. -/
def defaultConfig : StoreConfig := {}

/-- The limit advertised on a successful RESERVE: the configured
`{defaultDataLimit, defaultDurationLimit}` (spec §4.D step 2). -/
def defaultLimitOf (c : StoreConfig) : Limit :=
  { data := c.defaultDataLimit, duration := c.defaultDurationLimit }

/-- Find the reservation recorded for `p`, scanning in insertion order. -/
def lookupEntry : List (PeerId × Reservation) → PeerId → Option Reservation
  | [], _ => none
  | e :: rest, p => if e.fst = p then some e.snd else lookupEntry rest p

/-- Does the store hold an entry for `p`? -/
def hasEntry (entries : List (PeerId × Reservation)) (p : PeerId) : Bool :=
  (lookupEntry entries p).isSome

/-- Replace the (unique) entry for `p` in place, keeping its position
(spec §4.B step 1: refresh keeps position). -/
def overwriteEntry : List (PeerId × Reservation) → PeerId → Reservation →
    List (PeerId × Reservation)
  | [], _, _ => []
  | e :: rest, p, r => if e.fst = p then (p, r) :: rest else e :: overwriteEntry rest p r

/-- Modelled from the spec: the bounded reservation store, an ordered mapping
PeerId → Reservation (spec §3, §4.B). The server implementation
(`src/circuit-relay/server/reservation-store.ts`) is not among the sources;
only its test `hop.spec.ts` is. -/
structure ReservationStore where
  config : StoreConfig
  entries : List (PeerId × Reservation)
deriving DecidableEq, Repr

/-- Outcome of `reserve` (spec §4.B). -/
inductive ReserveResult where
  | ok (expire : Nat)
  | resourceLimitExceeded
deriving DecidableEq, Repr

/-- Modelled from the spec: `reserve(peer, addrs)` (spec §4.B).
1. An existing entry for `peer` is overwritten with a fresh
   `expire = now + reservationTtl`, keeping position, regardless of fullness.
2. Otherwise, if `size < max`, insert at the end.
3. Otherwise refuse with RESOURCE_LIMIT_EXCEEDED and leave the store as is. -/
def ReservationStore.reserve (s : ReservationStore) (now : Nat) (p : PeerId)
    (addrs : List Multiaddr) : ReserveResult × ReservationStore :=
  let r : Reservation :=
    { expire := now + s.config.reservationTtl, addrs := addrs,
      limit := defaultLimitOf s.config }
  if hasEntry s.entries p then
    (ReserveResult.ok r.expire, { s with entries := overwriteEntry s.entries p r })
  else if s.entries.length < s.config.maxReservations then
    (ReserveResult.ok r.expire, { s with entries := s.entries ++ [(p, r)] })
  else
    (ReserveResult.resourceLimitExceeded, s)

/-- Modelled from the spec: `get(peer)` returns the entry iff it has not
expired (spec §4.B). -/
def ReservationStore.get (s : ReservationStore) (now : Nat) (p : PeerId) :
    Option Reservation :=
  match lookupEntry s.entries p with
  | some r => if now < r.expire then some r else none
  | none => none

/-- HopMessage `type` tag (spec §3, §6). -/
inductive HopMsgType where
  | RESERVE
  | CONNECT
  | STATUS
deriving DecidableEq, Repr

/-- StatusCode enum (spec §3). -/
inductive StatusCode where
  | OK
  | RESERVATION_REFUSED
  | PERMISSION_DENIED
  | RESOURCE_LIMIT_EXCEEDED
  | NO_RESERVATION
  | MALFORMED_MESSAGE
  | UNEXPECTED_MESSAGE
  | CONNECTION_FAILED
deriving DecidableEq, Repr

/-- The `peer` sub-message of a CONNECT: `{ id: bytes, addrs: [bytes] }`
(spec §3). Proto3 fields may be absent, hence the options. -/
structure HopPeer where
  id : Option (List Nat) := none
  addrs : List (List Nat) := []
deriving DecidableEq, Repr

/-- A HopMessage on the wire or in a reply (spec §3, §6). Fields not set
default to absent. -/
structure HopMessage where
  type : HopMsgType
  peer : Option HopPeer := none
  reservation : Option Reservation := none
  limit : Option Limit := none
  status : Option StatusCode := none
deriving DecidableEq, Repr

/-- A bare STATUS reply carrying only a status code. -/
def statusMsg (code : StatusCode) : HopMessage :=
  { type := HopMsgType.STATUS, status := some code }

/-- A RESERVE request as the client sends it. -/
def reserveMsg : HopMessage :=
  { type := HopMsgType.RESERVE }

/-- Modelled from the spec: an optional gater predicate; unset or returning
false permits, returning true denies (spec §4.C). -/
def gaterDeny1 (g : Option (PeerId → Bool)) (p : PeerId) : Bool :=
  match g with
  | none => false
  | some f => f p

/-- Modelled from the spec: the two-argument gater predicates of §4.C. -/
def gaterDeny2 (g : Option (PeerId → PeerId → Bool)) (a b : PeerId) : Bool :=
  match g with
  | none => false
  | some f => f a b

/-- Modelled from the spec: the connection-gater bundle consulted by the HOP
handler (spec §4.C). `denyInboundRelayedConnection` belongs to the target
side of STOP and is not consulted by the HOP handler. -/
structure ConnectionGater where
  denyInboundRelayReservation : Option (PeerId → Bool) := none
  denyOutboundRelayedConnection : Option (PeerId → PeerId → Bool) := none

/-- Modelled from the spec: the relay's static environment as seen by one
HOP stream handler: its own identity, its advertised external addresses
(spec §6 AddressManager), the gater, the peer-id byte decoder, and the
outcome of the STOP dial to a given target (spec §4.D, §4.E). -/
structure RelayEnv where
  selfId : PeerId
  relayAddrs : List Multiaddr
  gater : ConnectionGater
  decodePeerId : List Nat → Option PeerId
  stopDialOk : PeerId → Bool

/-- The reply's `reservation.addrs`: the relay's own external addresses plus
`/p2p/<remotePeer>/p2p-circuit` (spec §4.D RESERVE step 2). -/
def reserveReplyAddrs (env : RelayEnv) (p : PeerId) : List Multiaddr :=
  env.relayAddrs ++ [Multiaddr.circuit p]

/-- Modelled from the spec: the RESERVE branch of the HOP state machine
(spec §4.D). Consult the gater, then the store; on success reply OK with
the computed reservation and the configured default limit. Peer tagging
(step 3) is best-effort and does not affect the reply (spec §4.G); it is
not modelled. Returns the reply and the store after the request. -/
def handleReserve (env : RelayEnv) (s : ReservationStore) (now : Nat)
    (p : PeerId) : HopMessage × ReservationStore :=
  if gaterDeny1 env.gater.denyInboundRelayReservation p then
    (statusMsg StatusCode.PERMISSION_DENIED, s)
  else
    match s.reserve now p (reserveReplyAddrs env p) with
    | (ReserveResult.ok expire, s1) =>
        ({ type := HopMsgType.STATUS, status := some StatusCode.OK,
           reservation := some { expire := expire, addrs := reserveReplyAddrs env p,
                                 limit := defaultLimitOf s.config },
           limit := some (defaultLimitOf s.config) }, s1)
    | (ReserveResult.resourceLimitExceeded, s1) =>
        (statusMsg StatusCode.RESERVATION_REFUSED, s1)

/-- Modelled from the spec: the CONNECT branch of the HOP state machine
(spec §4.D). A `peer.id` that is absent, empty or un-decodable replies
MALFORMED_MESSAGE; self-connect and a missing target reservation reply
NO_RESERVATION; the outbound gater replies PERMISSION_DENIED; a failed STOP
dial replies CONNECTION_FAILED; otherwise OK with the reservation's limit
and a transition to relaying. Returns (reply, store, relaying). -/
def handleConnect (env : RelayEnv) (s : ReservationStore) (now : Nat)
    (src : PeerId) (msg : HopMessage) : HopMessage × ReservationStore × Bool :=
  match msg.peer with
  | none => (statusMsg StatusCode.MALFORMED_MESSAGE, s, false)
  | some pr =>
    match pr.id with
    | none => (statusMsg StatusCode.MALFORMED_MESSAGE, s, false)
    | some bytes =>
      if bytes = [] then (statusMsg StatusCode.MALFORMED_MESSAGE, s, false)
      else
        match env.decodePeerId bytes with
        | none => (statusMsg StatusCode.MALFORMED_MESSAGE, s, false)
        | some target =>
          if target = env.selfId then
            (statusMsg StatusCode.NO_RESERVATION, s, false)
          else
            match s.get now target with
            | none => (statusMsg StatusCode.NO_RESERVATION, s, false)
            | some res =>
              if gaterDeny2 env.gater.denyOutboundRelayedConnection src target then
                (statusMsg StatusCode.PERMISSION_DENIED, s, false)
              else if env.stopDialOk target then
                ({ type := HopMsgType.STATUS, status := some StatusCode.OK,
                   limit := some res.limit }, s, true)
              else
                (statusMsg StatusCode.CONNECTION_FAILED, s, false)

/-- Result of handling the first HopMessage of one inbound HOP stream:
the STATUS replies written, the store afterwards, and whether the stream
transitioned to relaying (otherwise it is closed after the reply). -/
structure HopResult where
  replies : List HopMessage
  store : ReservationStore
  relaying : Bool
deriving DecidableEq, Repr

/-- Modelled from the spec: the per-stream dispatch of the HOP state machine
(spec §4.D). The first message must be RESERVE or CONNECT; anything else
(including STATUS) replies UNEXPECTED_MESSAGE and closes. -/
def handleHopMessage (env : RelayEnv) (s : ReservationStore) (now : Nat)
    (src : PeerId) (msg : HopMessage) : HopResult :=
  match msg.type with
  | HopMsgType.RESERVE =>
      let pr := handleReserve env s now src
      { replies := [pr.1], store := pr.2, relaying := false }
  | HopMsgType.CONNECT =>
      let pr := handleConnect env s now src msg
      { replies := [pr.1], store := pr.2.1, relaying := pr.2.2 }
  | HopMsgType.STATUS =>
      { replies := [statusMsg StatusCode.UNEXPECTED_MESSAGE], store := s,
        relaying := false }

/-- A CONNECT whose target cannot name a peer: the `peer` field or its `id`
is absent, the id bytes are empty, or they do not decode to a PeerId. -/
def connectTargetMalformed (decode : List Nat → Option PeerId)
    (msg : HopMessage) : Bool :=
  match msg.peer with
  | none => true
  | some pr =>
    match pr.id with
    | none => true
    | some bytes => bytes.isEmpty || (decode bytes).isNone

end CircuitRelay

namespace PeerStreams

/-- Events dispatched by the wrapper (`peer-streams.ts`: `stream:inbound`,
`stream:outbound`, `close`). -/
inductive Event where
  | streamInbound
  | streamOutbound
  | close
deriving DecidableEq, Repr

/-- The outbound pushable created in `attachOutboundStream`
(peer-streams.ts line 119): identified by `sid`, holding the queue of
messages pushed by `write`. Messages are abstracted to `Nat`. -/
structure OutStream where
  sid : Nat
  queue : List Nat
deriving DecidableEq, Repr

/-- The mutable fields of the `PeerStreams` class (peer-streams.ts lines
29-46). Raw streams and the inbound iterator are identified by `Nat` ids.
`inboundAborted` mirrors `_inboundAbortController.signal` having fired;
`endedOutbound` is a ghost log of the pushable ids whose `onEnd` callback
has run (the stream was ended). -/
structure State where
  outboundStream : Option OutStream
  inboundStream : Option Nat
  rawOutboundStream : Option Nat
  rawInboundStream : Option Nat
  inboundAborted : Bool
  closed : Bool
  endedOutbound : List Nat
deriving DecidableEq, Repr

/-- The state built by the constructor (peer-streams.ts lines 48-56). -/
def initState : State :=
  { outboundStream := none, inboundStream := none, rawOutboundStream := none,
    rawInboundStream := none, inboundAborted := false, closed := false,
    endedOutbound := [] }

/-- `get isReadable` (peer-streams.ts line 61). -/
def State.isReadable (s : State) : Bool :=
  s.inboundStream.isSome

/-- `get isWritable` (peer-streams.ts line 68). -/
def State.isWritable (s : State) : Bool :=
  s.outboundStream.isSome

/-- The `onEnd` callback of the outbound pushable (peer-streams.ts lines
121-135): close the write half of the raw stream, clear `_rawOutboundStream`
and `outboundStream`, and dispatch `close` iff `shouldEmit` (the value the
pushable was ended with) is non-null. -/
def onOutboundEnd (s : State) (shouldEmit : Option Nat) : State × List Event :=
  let ended :=
    match s.outboundStream with
    | some os => s.endedOutbound ++ [os.sid]
    | none => s.endedOutbound
  let s1 : State :=
    { s with rawOutboundStream := none, outboundStream := none,
             endedOutbound := ended }
  match shouldEmit with
  | some _ => (s1, [Event.close])
  | none => (s1, [])

/-- `outboundStream.end(err?)`: ending the attached pushable runs its
`onEnd` callback; with no pushable attached it is a no-op. -/
def endOutbound (s : State) (err : Option Nat) : State × List Event :=
  match s.outboundStream with
  | none => (s, [])
  | some _ => onOutboundEnd s err

/-- `write(data)` (peer-streams.ts lines 76-83): throws when no outbound
stream is attached, otherwise pushes the message onto the outbound queue. -/
def write (s : State) (d : Nat) : Except String State :=
  match s.outboundStream with
  | none => Except.error "No writable connection"
  | some os =>
      Except.ok { s with outboundStream := some { os with queue := os.queue ++ [d] } }

/-- `attachInboundStream(stream)` (peer-streams.ts lines 88-105): record the
raw stream, build the abortable length-prefix-decoding iterator (`iterId`),
and dispatch `stream:inbound`. -/
def attachInboundStream (s : State) (raw iterId : Nat) : State × List Event :=
  ({ s with rawInboundStream := some raw, inboundStream := some iterId },
   [Event.streamInbound])

/-- `attachOutboundStream(stream)` (peer-streams.ts lines 110-152): when an
outbound stream already exists, end it with no argument (so its `onEnd`
dispatches no `close`); then attach the raw stream and a fresh pushable
(`pushId`), and dispatch `stream:outbound` only when no stream existed
before (`_prevStream == null`, line 147). -/
def attachOutboundStream (s : State) (raw pushId : Nat) : State × List Event :=
  let prevExists := s.outboundStream.isSome
  let r1 := if prevExists then endOutbound s none else (s, [])
  let s2 : State :=
    { r1.1 with rawOutboundStream := some raw,
                outboundStream := some { sid := pushId, queue := [] } }
  let ev2 := if prevExists then [] else [Event.streamOutbound]
  (s2, r1.2 ++ ev2)

/-- `close()` (peer-streams.ts lines 157-178): a no-op when already closed;
otherwise end the outbound stream (no argument), abort the inbound stream
when one is attached, clear all four stream fields, and dispatch `close`. -/
def close (s : State) : State × List Event :=
  if s.closed then (s, [])
  else
    let s0 : State := { s with closed := true }
    let r1 := if s0.outboundStream.isSome then endOutbound s0 none else (s0, [])
    let s2 : State :=
      if r1.1.inboundStream.isSome then { r1.1 with inboundAborted := true } else r1.1
    let s3 : State :=
      { s2 with rawOutboundStream := none, outboundStream := none,
                rawInboundStream := none, inboundStream := none }
    (s3, r1.2 ++ [Event.close])

/-- The wrapper's public operations, as an alphabet for sequences of calls. -/
inductive Op where
  | attachOut (raw pushId : Nat)
  | attachIn (raw iterId : Nat)
  | doWrite (d : Nat)
  | doClose
deriving DecidableEq, Repr

/-- One public call on the wrapper; a throwing `write` leaves the state
unchanged and dispatches nothing. -/
def step (s : State) : Op → State × List Event
  | Op.attachOut raw pushId => attachOutboundStream s raw pushId
  | Op.attachIn raw iterId => attachInboundStream s raw iterId
  | Op.doWrite d =>
      match write s d with
      | Except.ok s1 => (s1, [])
      | Except.error _ => (s, [])
  | Op.doClose => close s

/-- Semantics of `abortableSource(src, signal, { returnOnAbort })` from the
abortable-iterator dependency, as used at peer-streams.ts lines 94-101:
given the items the underlying source would yield and the point at which
the signal fires (`none` = never), the iterator yields the items read
before the abort; with `returnOnAbort` it then completes normally,
otherwise it raises an abort error. The second component records whether
the consumer saw an error. -/
def abortableSourceRun (returnOnAbort : Bool) (items : List Nat)
    (abortAt : Option Nat) : List Nat × Bool :=
  match abortAt with
  | none => (items, false)
  | some k => (items.take k, !returnOnAbort)

/-- The inbound iterator built by `attachInboundStream`: `abortableSource`
with `returnOnAbort: true` (peer-streams.ts line 100). -/
def inboundRun (items : List Nat) (abortAt : Option Nat) : List Nat × Bool :=
  abortableSourceRun true items abortAt

end PeerStreams

namespace CircuitRelay

/-- A small test configuration: capacity one, TTL ten seconds. -/
def cfgOne : StoreConfig :=
  { maxReservations := 1, reservationTtl := 10, defaultDataLimit := 131072,
    defaultDurationLimit := 120 }

/-- A reservation fixture expiring at 100. -/
def resvA : Reservation :=
  { expire := 100, addrs := [], limit := defaultLimitOf cfgOne }

/-- A store at capacity, holding a reservation for peer 1. -/
def storeFullA : ReservationStore :=
  { config := cfgOne, entries := [(1, resvA)] }

/-- An empty store with capacity one. -/
def storeEmptyOne : ReservationStore :=
  { config := cfgOne, entries := [] }

/-- A store holding a reservation for peer 2 (a CONNECT target). -/
def storeTargetTwo : ReservationStore :=
  { config := cfgOne, entries := [(2, resvA)] }

/-- A relay environment fixture: the relay is peer 0 with one external
address, a permissive gater, peer-id bytes decoded by taking the first
byte, and a STOP dial that always succeeds. -/
def envA : RelayEnv :=
  { selfId := 0, relayAddrs := [Multiaddr.ext 7], gater := {},
    decodePeerId := fun b => b.head?, stopDialOk := fun _ => true }

/-- `envA` with an inbound-reservation gater that denies everyone. -/
def envDenyIn : RelayEnv :=
  { envA with gater := { denyInboundRelayReservation := some (fun _ => true) } }

/-- `envA` with an outbound-relayed-connection gater that denies everyone. -/
def envDenyOut : RelayEnv :=
  { envA with gater := { denyOutboundRelayedConnection := some (fun _ _ => true) } }

/-- A well-formed CONNECT aimed at peer 2. -/
def connectMsgA : HopMessage :=
  { type := HopMsgType.CONNECT, peer := some { id := some [2], addrs := [] } }

/-- A CONNECT whose `peer` sub-message carries no id (the test's
`peer: \x7b\x7d`). -/
def connectMsgNoId : HopMessage :=
  { type := HopMsgType.CONNECT, peer := some {} }

end CircuitRelay

namespace PeerStreams

/-- A wrapper state with an outbound pushable (id 3) attached. -/
def stateOut : State :=
  { initState with outboundStream := some { sid := 3, queue := [] },
                   rawOutboundStream := some 30 }

/-- A wrapper state with an inbound iterator (id 5) attached. -/
def stateIn : State :=
  { initState with inboundStream := some 5, rawInboundStream := some 50 }

end PeerStreams

namespace CircuitRelay

theorem length_overwriteEntry (l : List (PeerId × Reservation)) (p : PeerId)
    (r : Reservation) : (overwriteEntry l p r).length = l.length := by
  induction l with
  | nil => rfl
  | cons e rest ih =>
      by_cases h : e.fst = p <;> simp [overwriteEntry, h, ih]

theorem lookup_overwriteEntry_self (l : List (PeerId × Reservation)) (p : PeerId)
    (r : Reservation) (h : hasEntry l p = true) :
    lookupEntry (overwriteEntry l p r) p = some r := by
  induction l with
  | nil => simp [hasEntry, lookupEntry] at h
  | cons e rest ih =>
      by_cases he : e.fst = p
      · simp [overwriteEntry, he, lookupEntry]
      · have h2 : hasEntry rest p = true := by
          simpa [hasEntry, lookupEntry, he] using h
        simp [overwriteEntry, he, lookupEntry, ih h2]

theorem lookup_none_of_hasEntry_false (l : List (PeerId × Reservation)) (p : PeerId)
    (h : hasEntry l p = false) : lookupEntry l p = none := by
  cases hl : lookupEntry l p with
  | none => rfl
  | some r => simp [hasEntry, hl] at h

theorem lookup_append_single (l : List (PeerId × Reservation)) (p : PeerId)
    (r : Reservation) (h : lookupEntry l p = none) :
    lookupEntry (l ++ [(p, r)]) p = some r := by
  induction l with
  | nil => simp [lookupEntry]
  | cons e rest ih =>
      by_cases he : e.fst = p
      · simp [lookupEntry, he] at h
      · simp only [lookupEntry, he] at h
        simp [lookupEntry, he, ih h]

/-- Claim C1: a RESERVE from a peer that already has an entry succeeds and
overwrites it with a fresh `expire = now + reservationTtl`, even at
capacity; a RESERVE from a new peer against a full store is refused (HOP
reply RESERVATION_REFUSED), evicts nobody and leaves the store unchanged;
hence `reserve` never grows the store past `maxReservations` (default 15). -/
theorem reserve_refresh_and_capacity (s : ReservationStore) (now : Nat)
    (p : PeerId) (addrs : List Multiaddr) :
    (hasEntry s.entries p = true →
      (s.reserve now p addrs).1 = ReserveResult.ok (now + s.config.reservationTtl)
      ∧ lookupEntry (s.reserve now p addrs).2.entries p =
          some { expire := now + s.config.reservationTtl, addrs := addrs,
                 limit := defaultLimitOf s.config }
      ∧ (s.reserve now p addrs).2.entries.length = s.entries.length)
    ∧ (hasEntry s.entries p = false → s.entries.length = s.config.maxReservations →
        (s.reserve now p addrs).1 = ReserveResult.resourceLimitExceeded
        ∧ (s.reserve now p addrs).2 = s
        ∧ ∀ env : RelayEnv, gaterDeny1 env.gater.denyInboundRelayReservation p = false →
            handleHopMessage env s now p reserveMsg =
              { replies := [statusMsg StatusCode.RESERVATION_REFUSED], store := s,
                relaying := false })
    ∧ (s.entries.length ≤ s.config.maxReservations →
        (s.reserve now p addrs).2.entries.length ≤ s.config.maxReservations)
    ∧ defaultConfig.maxReservations = 15 := by
  refine ⟨?_, ?_, ?_, rfl⟩
  · intro h
    refine ⟨?_, ?_, ?_⟩
    · simp [ReservationStore.reserve, h]
    · simp [ReservationStore.reserve, h, lookup_overwriteEntry_self s.entries p _ h]
    · simp [ReservationStore.reserve, h, length_overwriteEntry]
  · intro h hlen
    have hnlt : ¬ s.entries.length < s.config.maxReservations := by omega
    refine ⟨?_, ?_, ?_⟩
    · simp [ReservationStore.reserve, h, hnlt]
    · simp [ReservationStore.reserve, h, hnlt]
    · intro env hg
      simp [handleHopMessage, reserveMsg, handleReserve, hg,
            ReservationStore.reserve, h, hnlt]
  · intro hle
    by_cases h : hasEntry s.entries p
    · simpa [ReservationStore.reserve, h, length_overwriteEntry] using hle
    · by_cases hlt : s.entries.length < s.config.maxReservations
      · simp [ReservationStore.reserve, h, hlt]
        omega
      · simpa [ReservationStore.reserve, h, hlt] using hle

theorem reserve_refresh_and_capacity_witness :
    ((storeFullA.reserve 5 1 []).1 = ReserveResult.ok 15
      ∧ lookupEntry (storeFullA.reserve 5 1 []).2.entries 1 =
          some { expire := 15, addrs := [], limit := defaultLimitOf cfgOne }
      ∧ (storeFullA.reserve 5 1 []).2.entries.length = 1)
    ∧ ((storeFullA.reserve 5 9 []).1 = ReserveResult.resourceLimitExceeded
      ∧ (storeFullA.reserve 5 9 []).2 = storeFullA
      ∧ handleHopMessage envA storeFullA 5 9 reserveMsg =
          { replies := [statusMsg StatusCode.RESERVATION_REFUSED],
            store := storeFullA, relaying := false })
    ∧ (storeFullA.reserve 5 9 []).2.entries.length ≤ 1 := by
  have h1 := reserve_refresh_and_capacity storeFullA 5 1 []
  have h9 := reserve_refresh_and_capacity storeFullA 5 9 []
  have hr := h1.1 (by decide)
  have hf := h9.2.1 (by decide) (by decide)
  exact ⟨⟨hr.1, hr.2.1, hr.2.2⟩,
         ⟨hf.1, hf.2.1, hf.2.2 envA rfl⟩,
         h9.2.2.1 (by decide)⟩

/-- Claim C2: an admitted RESERVE replies STATUS OK whose reservation
contains the relay's own advertised addresses, expires at
`now + reservationTtl` (default two hours = 7200 s), and advertises the
configured default limit (defaults 131072 bytes / 120 s); afterwards the
store holds an unexpired entry for the requester with that same limit. -/
theorem hop_reserve_ok_reply (env : RelayEnv) (s : ReservationStore) (now : Nat)
    (p : PeerId)
    (hg : gaterDeny1 env.gater.denyInboundRelayReservation p = false)
    (hadm : hasEntry s.entries p = true ∨ s.entries.length < s.config.maxReservations)
    (httl : 0 < s.config.reservationTtl) :
    (handleHopMessage env s now p reserveMsg).replies =
      [{ type := HopMsgType.STATUS, status := some StatusCode.OK,
         reservation := some { expire := now + s.config.reservationTtl,
                               addrs := reserveReplyAddrs env p,
                               limit := defaultLimitOf s.config },
         limit := some (defaultLimitOf s.config) }]
    ∧ (handleHopMessage env s now p reserveMsg).relaying = false
    ∧ (∀ a ∈ env.relayAddrs, a ∈ reserveReplyAddrs env p)
    ∧ (handleHopMessage env s now p reserveMsg).store.get now p =
        some { expire := now + s.config.reservationTtl,
               addrs := reserveReplyAddrs env p, limit := defaultLimitOf s.config }
    ∧ defaultConfig.reservationTtl = 7200
    ∧ defaultConfig.defaultDataLimit = 131072
    ∧ defaultConfig.defaultDurationLimit = 120 := by
  have hlt : now < now + s.config.reservationTtl := by omega
  by_cases hmem : hasEntry s.entries p
  · refine ⟨?_, ?_, ?_, ?_, rfl, rfl, rfl⟩
    · simp [handleHopMessage, reserveMsg, handleReserve, hg,
            ReservationStore.reserve, hmem]
    · simp [handleHopMessage, reserveMsg, handleReserve, hg,
            ReservationStore.reserve, hmem]
    · intro a ha
      simp [reserveReplyAddrs, ha]
    · simp [handleHopMessage, reserveMsg, handleReserve, hg,
            ReservationStore.reserve, hmem, ReservationStore.get,
            lookup_overwriteEntry_self s.entries p _ hmem, hlt]
  · have hsz : s.entries.length < s.config.maxReservations := by
      cases hadm with
      | inl h => exact absurd h (by simp [hmem])
      | inr h => exact h
    have hnone := lookup_none_of_hasEntry_false s.entries p (by simpa using hmem)
    refine ⟨?_, ?_, ?_, ?_, rfl, rfl, rfl⟩
    · simp [handleHopMessage, reserveMsg, handleReserve, hg,
            ReservationStore.reserve, hmem, hsz]
    · simp [handleHopMessage, reserveMsg, handleReserve, hg,
            ReservationStore.reserve, hmem, hsz]
    · intro a ha
      simp [reserveReplyAddrs, ha]
    · simp [handleHopMessage, reserveMsg, handleReserve, hg,
            ReservationStore.reserve, hmem, hsz, ReservationStore.get,
            lookup_append_single s.entries p _ hnone, hlt]

theorem hop_reserve_ok_reply_witness :
    (handleHopMessage envA storeEmptyOne 5 1 reserveMsg).replies =
      [{ type := HopMsgType.STATUS, status := some StatusCode.OK,
         reservation := some { expire := 15, addrs := reserveReplyAddrs envA 1,
                               limit := defaultLimitOf cfgOne },
         limit := some (defaultLimitOf cfgOne) }]
    ∧ (handleHopMessage envA storeEmptyOne 5 1 reserveMsg).store.get 5 1 =
        some { expire := 15, addrs := reserveReplyAddrs envA 1,
               limit := defaultLimitOf cfgOne }
    ∧ Multiaddr.ext 7 ∈ reserveReplyAddrs envA 1 := by
  have h := hop_reserve_ok_reply envA storeEmptyOne 5 1 rfl (Or.inr (by decide))
    (by decide)
  exact ⟨h.1, h.2.2.2.1, h.2.2.1 (Multiaddr.ext 7) (by decide)⟩

/-- Claim C3: a first HopMessage that is neither RESERVE nor CONNECT
(including a STATUS message) gets exactly one STATUS reply with
UNEXPECTED_MESSAGE, and the stream is closed (no relaying transition). -/
theorem hop_unexpected_first_message (env : RelayEnv) (s : ReservationStore)
    (now : Nat) (src : PeerId) (msg : HopMessage)
    (h1 : msg.type ≠ HopMsgType.RESERVE) (h2 : msg.type ≠ HopMsgType.CONNECT) :
    handleHopMessage env s now src msg =
      { replies := [statusMsg StatusCode.UNEXPECTED_MESSAGE], store := s,
        relaying := false } := by
  cases ht : msg.type with
  | RESERVE => exact absurd ht h1
  | CONNECT => exact absurd ht h2
  | STATUS => simp [handleHopMessage, ht]

theorem hop_unexpected_first_message_witness :
    handleHopMessage envA storeEmptyOne 5 1 (statusMsg StatusCode.MALFORMED_MESSAGE) =
      { replies := [statusMsg StatusCode.UNEXPECTED_MESSAGE], store := storeEmptyOne,
        relaying := false } :=
  hop_unexpected_first_message envA storeEmptyOne 5 1
    (statusMsg StatusCode.MALFORMED_MESSAGE) (by decide) (by decide)

/-- Claim C4: a CONNECT whose decoded target has no live reservation gets
NO_RESERVATION; the conclusion holds for every requesting peer `src`, so
whether the requester itself holds a reservation does not affect it. -/
theorem hop_connect_no_target_reservation (env : RelayEnv) (s : ReservationStore)
    (now : Nat) (src : PeerId) (msg : HopMessage) (pr : HopPeer)
    (bytes : List Nat) (target : PeerId)
    (htype : msg.type = HopMsgType.CONNECT)
    (hpeer : msg.peer = some pr)
    (hid : pr.id = some bytes)
    (hne : bytes ≠ [])
    (hdec : env.decodePeerId bytes = some target)
    (hget : s.get now target = none) :
    handleHopMessage env s now src msg =
      { replies := [statusMsg StatusCode.NO_RESERVATION], store := s,
        relaying := false } := by
  by_cases hself : target = env.selfId <;>
    simp [handleHopMessage, htype, handleConnect, hpeer, hid, hne, hdec, hself, hget]

theorem hop_connect_no_target_reservation_witness :
    handleHopMessage envA storeFullA 5 1 connectMsgA =
      { replies := [statusMsg StatusCode.NO_RESERVATION], store := storeFullA,
        relaying := false } :=
  hop_connect_no_target_reservation envA storeFullA 5 1 connectMsgA
    { id := some [2], addrs := [] } [2] 2 rfl rfl rfl (by decide) rfl (by decide)

theorem connect_malformed_eval (env : RelayEnv) (s : ReservationStore) (now : Nat)
    (src : PeerId) (msg : HopMessage)
    (hbad : connectTargetMalformed env.decodePeerId msg = true) :
    handleConnect env s now src msg =
      (statusMsg StatusCode.MALFORMED_MESSAGE, s, false) := by
  cases hp : msg.peer with
  | none => simp [handleConnect, hp]
  | some pr =>
      cases hi : pr.id with
      | none => simp [handleConnect, hp, hi]
      | some bytes =>
          by_cases hbe : bytes = []
          · simp [handleConnect, hp, hi, hbe]
          · have hdn : env.decodePeerId bytes = none := by
              have h2 := hbad
              simp [connectTargetMalformed, hp, hi] at h2
              rcases h2 with h2 | h2
              · exact absurd h2 hbe
              · exact h2
            simp [handleConnect, hp, hi, hbe, hdn]

/-- Claim C5: a CONNECT whose `peer.id` is absent, empty, or un-decodable is
answered MALFORMED_MESSAGE with the store unchanged, and the outcome is the
same under any gater and any STOP-dial behaviour (none of them is
consulted). -/
theorem hop_connect_malformed_target (env : RelayEnv) (s : ReservationStore)
    (now : Nat) (src : PeerId) (msg : HopMessage)
    (htype : msg.type = HopMsgType.CONNECT)
    (hbad : connectTargetMalformed env.decodePeerId msg = true) :
    handleHopMessage env s now src msg =
      { replies := [statusMsg StatusCode.MALFORMED_MESSAGE], store := s,
        relaying := false }
    ∧ ∀ (g : ConnectionGater) (d : PeerId → Bool),
        handleHopMessage { env with gater := g, stopDialOk := d } s now src msg =
          { replies := [statusMsg StatusCode.MALFORMED_MESSAGE], store := s,
            relaying := false } := by
  constructor
  · simp [handleHopMessage, htype, connect_malformed_eval env s now src msg hbad]
  · intro g d
    have hbad2 :
        connectTargetMalformed
          ({ env with gater := g, stopDialOk := d } : RelayEnv).decodePeerId msg = true :=
      hbad
    simp [handleHopMessage, htype, connect_malformed_eval _ s now src msg hbad2]

theorem hop_connect_malformed_target_witness :
    handleHopMessage envA storeFullA 5 1 connectMsgNoId =
      { replies := [statusMsg StatusCode.MALFORMED_MESSAGE], store := storeFullA,
        relaying := false }
    ∧ handleHopMessage
        ({ envA with gater := envDenyOut.gater, stopDialOk := fun _ => false } : RelayEnv)
        storeFullA 5 1 connectMsgNoId =
      { replies := [statusMsg StatusCode.MALFORMED_MESSAGE], store := storeFullA,
        relaying := false } := by
  have h := hop_connect_malformed_target envA storeFullA 5 1 connectMsgNoId rfl rfl
  exact ⟨h.1, h.2 envDenyOut.gater (fun _ => false)⟩

/-- Claim C6: a RESERVE denied by `denyInboundRelayReservation` is answered
PERMISSION_DENIED with no side effect on the store (in particular the
requester gains no entry); an unset predicate or one returning false
permits, and `denyOutboundRelayedConnection` returning true maps a CONNECT
to PERMISSION_DENIED. -/
theorem hop_gater_denials (env : RelayEnv) (s : ReservationStore) (now : Nat)
    (src : PeerId) :
    (gaterDeny1 env.gater.denyInboundRelayReservation src = true →
      handleHopMessage env s now src reserveMsg =
        { replies := [statusMsg StatusCode.PERMISSION_DENIED], store := s,
          relaying := false })
    ∧ (gaterDeny1 env.gater.denyInboundRelayReservation src = true →
        hasEntry s.entries src = false →
        hasEntry (handleHopMessage env s now src reserveMsg).store.entries src = false)
    ∧ gaterDeny1 none src = false
    ∧ (∀ t : PeerId, gaterDeny2 none src t = false)
    ∧ (∀ f : PeerId → Bool, f src = false → gaterDeny1 (some f) src = false)
    ∧ (∀ (f : PeerId → PeerId → Bool) (t : PeerId), f src t = false →
        gaterDeny2 (some f) src t = false)
    ∧ (∀ (msg : HopMessage) (pr : HopPeer) (bytes : List Nat) (target : PeerId)
        (res : Reservation),
        msg.type = HopMsgType.CONNECT → msg.peer = some pr → pr.id = some bytes →
        bytes ≠ [] → env.decodePeerId bytes = some target → target ≠ env.selfId →
        s.get now target = some res →
        gaterDeny2 env.gater.denyOutboundRelayedConnection src target = true →
        handleHopMessage env s now src msg =
          { replies := [statusMsg StatusCode.PERMISSION_DENIED], store := s,
            relaying := false }) := by
  refine ⟨?_, ?_, rfl, fun _ => rfl, ?_, ?_, ?_⟩
  · intro h
    simp [handleHopMessage, reserveMsg, handleReserve, h]
  · intro h h2
    simpa [handleHopMessage, reserveMsg, handleReserve, h] using h2
  · intro f hf
    simp [gaterDeny1, hf]
  · intro f t hf
    simp [gaterDeny2, hf]
  · intro msg pr bytes target res htype hpeer hid hne hdec hself hget hdeny
    simp [handleHopMessage, htype, handleConnect, hpeer, hid, hne, hdec, hself,
          hget, hdeny]

theorem hop_gater_denials_witness :
    handleHopMessage envDenyIn storeEmptyOne 5 1 reserveMsg =
      { replies := [statusMsg StatusCode.PERMISSION_DENIED], store := storeEmptyOne,
        relaying := false }
    ∧ hasEntry (handleHopMessage envDenyIn storeEmptyOne 5 1 reserveMsg).store.entries 1 = false
    ∧ handleHopMessage envDenyOut storeTargetTwo 5 1 connectMsgA =
      { replies := [statusMsg StatusCode.PERMISSION_DENIED], store := storeTargetTwo,
        relaying := false } := by
  have hin := hop_gater_denials envDenyIn storeEmptyOne 5 1
  have hout := hop_gater_denials envDenyOut storeTargetTwo 5 1
  exact ⟨hin.1 rfl, hin.2.1 rfl (by decide),
         hout.2.2.2.2.2.2 connectMsgA { id := some [2], addrs := [] } [2] 2 resvA
           rfl rfl rfl (by decide) rfl (by decide) (by decide) rfl⟩

end CircuitRelay

namespace PeerStreams

theorem close_eval (s : State) (hc : s.closed = false) :
    close s =
      ({ s with closed := true,
                rawOutboundStream := none, outboundStream := none,
                rawInboundStream := none, inboundStream := none,
                inboundAborted := s.inboundAborted || s.inboundStream.isSome,
                endedOutbound :=
                  match s.outboundStream with
                  | some os => s.endedOutbound ++ [os.sid]
                  | none => s.endedOutbound },
       [Event.close]) := by
  cases hos : s.outboundStream with
  | none =>
      cases hin : s.inboundStream with
      | none => simp [close, hc, hos, hin, endOutbound]
      | some i => simp [close, hc, hos, hin, endOutbound]
  | some os =>
      cases hin : s.inboundStream with
      | none => simp [close, hc, hos, hin, endOutbound, onOutboundEnd]
      | some i => simp [close, hc, hos, hin, endOutbound, onOutboundEnd]

/-- Claim C7: attaching an outbound stream while one exists ends the
previous one with no `close` event (and no second `stream:outbound`); the
first attach emits `stream:outbound`; and any public call that finally
detaches the outbound stream emits a `close` event. -/
theorem attach_outbound_events (s : State) :
    (∀ (os : OutStream) (raw pushId : Nat), s.outboundStream = some os →
      (attachOutboundStream s raw pushId).2 = []
      ∧ os.sid ∈ (attachOutboundStream s raw pushId).1.endedOutbound
      ∧ (attachOutboundStream s raw pushId).1.outboundStream =
          some { sid := pushId, queue := [] })
    ∧ (∀ raw pushId : Nat, s.outboundStream = none →
        (attachOutboundStream s raw pushId).2 = [Event.streamOutbound])
    ∧ (∀ op : Op, s.outboundStream.isSome = true →
        (step s op).1.outboundStream = none → Event.close ∈ (step s op).2) := by
  refine ⟨?_, ?_, ?_⟩
  · intro os raw pushId h
    refine ⟨?_, ?_, ?_⟩ <;>
      simp [attachOutboundStream, h, endOutbound, onOutboundEnd]
  · intro raw pushId h
    simp [attachOutboundStream, h]
  · intro op hsome hnone
    cases op with
    | attachOut raw pushId =>
        simp [step, attachOutboundStream] at hnone
    | attachIn raw iterId =>
        simp [step, attachInboundStream] at hnone
        rw [hnone] at hsome
        simp at hsome
    | doWrite d =>
        cases hos : s.outboundStream with
        | none => simp [hos] at hsome
        | some os => simp [step, write, hos] at hnone
    | doClose =>
        by_cases hc : s.closed
        · simp [step, close, hc] at hnone
          rw [hnone] at hsome
          simp at hsome
        · simp [step, close_eval s (by simpa using hc)]

theorem attach_outbound_events_witness :
    ((attachOutboundStream stateOut 8 4).2 = []
      ∧ 3 ∈ (attachOutboundStream stateOut 8 4).1.endedOutbound
      ∧ (attachOutboundStream stateOut 8 4).1.outboundStream =
          some { sid := 4, queue := [] })
    ∧ (attachOutboundStream initState 8 4).2 = [Event.streamOutbound]
    ∧ Event.close ∈ (step stateOut Op.doClose).2 := by
  have h := attach_outbound_events stateOut
  have h0 := attach_outbound_events initState
  exact ⟨h.1 { sid := 3, queue := [] } 8 4 rfl, h0.2.1 8 4 rfl,
         h.2.2 Op.doClose rfl (by decide)⟩

/-- Claim C8: `write` fails exactly when no outbound stream is attached;
with one attached it appends the message to the outbound queue and does
not fail. -/
theorem write_requires_outbound (s : State) (d : Nat) :
    (s.outboundStream = none → write s d = Except.error "No writable connection")
    ∧ (∀ os : OutStream, s.outboundStream = some os →
        write s d =
          Except.ok { s with outboundStream := some { os with queue := os.queue ++ [d] } })
    ∧ ((∃ e, write s d = Except.error e) ↔ s.outboundStream = none) := by
  refine ⟨?_, ?_, ?_⟩
  · intro h
    simp [write, h]
  · intro os h
    simp [write, h]
  · cases hos : s.outboundStream <;> simp [write, hos]

theorem write_requires_outbound_witness :
    write initState 7 = Except.error "No writable connection"
    ∧ write stateOut 7 =
        Except.ok { stateOut with outboundStream := some { sid := 3, queue := [7] } } := by
  have h0 := write_requires_outbound initState 7
  have h1 := write_requires_outbound stateOut 7
  exact ⟨h0.1 rfl, h1.2.1 { sid := 3, queue := [] } rfl⟩

/-- Claim C9: the inbound iterator is built with `returnOnAbort`, so when
the abort signal fires after `k` items it yields exactly those items and
completes normally, surfacing no error; `close()` trips the wrapper's
abort controller whenever an inbound stream is attached. -/
theorem inbound_abort_completes (items : List Nat) (k : Nat) (s : State) :
    inboundRun items (some k) = (items.take k, false)
    ∧ inboundRun items none = (items, false)
    ∧ (s.closed = false → s.inboundStream.isSome = true →
        (close s).1.inboundAborted = true)
    ∧ (∀ raw iterId : Nat,
        (attachInboundStream s raw iterId).1.inboundStream = some iterId) := by
  refine ⟨rfl, rfl, ?_, ?_⟩
  · intro hc hin
    simp [close_eval s hc, hin]
  · intro raw iterId
    simp [attachInboundStream]

theorem inbound_abort_completes_witness :
    inboundRun [1, 2, 3] (some 1) = ([1], false)
    ∧ (close stateIn).1.inboundAborted = true
    ∧ (attachInboundStream initState 9 5).1.inboundStream = some 5 := by
  have h := inbound_abort_completes [1, 2, 3] 1 stateIn
  have h0 := inbound_abort_completes [1, 2, 3] 1 initState
  exact ⟨h.1, h.2.2.1 rfl rfl, h0.2.2.2 9 5⟩

/-- Claim C10: the first `close()` marks the wrapper closed, ends the
outbound stream, aborts the inbound stream, clears all four stream fields
(so `isReadable` and `isWritable` are false) and dispatches exactly one
`close` event; a second `close()` changes nothing and emits nothing. -/
theorem close_idempotent (s : State) :
    (s.closed = false →
      (close s).1.closed = true
      ∧ (close s).1.outboundStream = none
      ∧ (close s).1.inboundStream = none
      ∧ (close s).1.rawOutboundStream = none
      ∧ (close s).1.rawInboundStream = none
      ∧ (close s).1.isReadable = false
      ∧ (close s).1.isWritable = false
      ∧ (close s).2 = [Event.close]
      ∧ (∀ os : OutStream, s.outboundStream = some os →
          os.sid ∈ (close s).1.endedOutbound)
      ∧ (s.inboundStream.isSome = true → (close s).1.inboundAborted = true)
      ∧ close (close s).1 = ((close s).1, []))
    ∧ (s.closed = true → close s = (s, [])) := by
  constructor
  · intro hc
    refine ⟨?_, ?_, ?_, ?_, ?_, ?_, ?_, ?_, ?_, ?_, ?_⟩
    · simp [close_eval s hc]
    · simp [close_eval s hc]
    · simp [close_eval s hc]
    · simp [close_eval s hc]
    · simp [close_eval s hc]
    · simp [close_eval s hc, State.isReadable]
    · simp [close_eval s hc, State.isWritable]
    · simp [close_eval s hc]
    · intro os h
      simp [close_eval s hc, h]
    · intro hin
      simp [close_eval s hc, hin]
    · have h2 : ∀ t : State, t.closed = true → close t = (t, []) := by
        intro t ht
        simp [close, ht]
      exact h2 (close s).1 (by simp [close_eval s hc])
  · intro h
    simp [close, h]

theorem close_idempotent_witness :
    (close stateOut).1.closed = true
    ∧ (close stateOut).1.isWritable = false
    ∧ (close stateOut).2 = [Event.close]
    ∧ 3 ∈ (close stateOut).1.endedOutbound
    ∧ (close stateIn).1.inboundAborted = true
    ∧ close (close stateOut).1 = ((close stateOut).1, []) := by
  have h := close_idempotent stateOut
  have hi := close_idempotent stateIn
  have ho := h.1 rfl
  exact ⟨ho.1, ho.2.2.2.2.2.2.1, ho.2.2.2.2.2.2.2.1,
         ho.2.2.2.2.2.2.2.2.1 { sid := 3, queue := [] } rfl,
         (hi.1 rfl).2.2.2.2.2.2.2.2.2.1 rfl,
         ho.2.2.2.2.2.2.2.2.2.2⟩

end PeerStreams
